import Mathlib

/-!
# Verification of the Arcade library (`arcade.h`)

A shallow embedding of the sprite / animation / input / collision /
image-transform core of `src/SuperJumpAdventure/arcade/arcade.h`, together
with theorems settling the specification claims about it.

Modelling conventions:
* C `float` fields are modelled as `ℚ`.  Every concrete value appearing in
  the claims (`0.5`, `560.5`, `40`, …) is exactly representable in binary
  floating point and all operations involved stay exact at these magnitudes,
  so rational arithmetic is faithful.
* C `int` fields are modelled as `ℤ` (no claim drives any counter anywhere
  near the 32-bit overflow boundary); C's truncated `%` on `int` is
  `Int.tmod`.
* Pointers that may be `NULL` are modelled as `Option`; a heap pixel buffer
  is `Option (List ℕ)` (`none` = `NULL`).
* Results of the external stb libraries (`stbi_load`, `stbir_resize…`,
  `malloc`) are oracle inputs packaged in a `LoadEnv`, one per filename.
-/

namespace Arcade

/-- `ArcadeSprite` (arcade.h, color-based sprite): position, size, velocity,
color, active flag. -/
structure ArcadeSprite where
  x : ℚ
  y : ℚ
  width : ℚ
  height : ℚ
  vy : ℚ
  vx : ℚ
  color : ℕ
  active : ℤ
  deriving Repr, DecidableEq

/-- `ArcadeImageSprite` (arcade.h): position, size, velocity, owned pixel
buffer (`none` = `NULL`), image dimensions, active flag. -/
structure ArcadeImageSprite where
  x : ℚ
  y : ℚ
  width : ℚ
  height : ℚ
  vy : ℚ
  vx : ℚ
  pixels : Option (List ℕ)
  image_width : ℤ
  image_height : ℤ
  active : ℤ
  deriving Repr, DecidableEq

/-- The all-zero `ArcadeImageSprite`; also used as the (inactive) default
value when the C code would read past the end of a frames array. -/
def emptyImageSprite : ArcadeImageSprite :=
  { x := 0, y := 0, width := 0, height := 0, vy := 0, vx := 0,
    pixels := none, image_width := 0, image_height := 0, active := 0 }

/-- `move_sprite` (arcade.h lines 1559-1576): gravity integration followed by
clamping `y` against the outer window bounds, zeroing `vy` at a bound.
The two `if`s run sequentially exactly as in the source. -/
def move_sprite (sprite : ArcadeSprite) (gravity : ℚ) (window_height : ℤ) :
    ArcadeSprite :=
  if sprite.active = 0 then sprite
  else
    -- vy += gravity; y += vy; x += vx;
    let vy1 := sprite.vy + gravity
    let y1 := sprite.y + vy1
    let x1 := sprite.x + sprite.vx
    -- if (y < 0) { y = 0; vy = 0; }
    let y2 := if y1 < 0 then 0 else y1
    let vy2 := if y1 < 0 then 0 else vy1
    -- if (y > window_height - height) { y = window_height - height; vy = 0; }
    let y3 := if y2 > (window_height : ℚ) - sprite.height then
      (window_height : ℚ) - sprite.height else y2
    let vy3 := if y2 > (window_height : ℚ) - sprite.height then 0 else vy2
    { sprite with x := x1, y := y3, vy := vy3 }

/-- `arcade_move_sprite` (arcade.h lines 1578-1582): `NULL` guard then
`move_sprite`. -/
def arcade_move_sprite (sprite : Option ArcadeSprite) (gravity : ℚ)
    (window_height : ℤ) : Option ArcadeSprite :=
  match sprite with
  | none => none
  | some s => some (move_sprite s gravity window_height)

/-- `arcade_move_image_sprite` (arcade.h lines 1584-1601): identical physics
for image sprites (the `NULL` guard is reflected by taking the sprite by
value; the inactive guard is explicit). -/
def arcade_move_image_sprite (sprite : ArcadeImageSprite) (gravity : ℚ)
    (window_height : ℤ) : ArcadeImageSprite :=
  if sprite.active = 0 then sprite
  else
    -- vy += gravity; y += vy; x += vx;
    let vy1 := sprite.vy + gravity
    let y1 := sprite.y + vy1
    let x1 := sprite.x + sprite.vx
    -- if (y < 0) { y = 0; vy = 0; }
    let y2 := if y1 < 0 then 0 else y1
    let vy2 := if y1 < 0 then 0 else vy1
    -- if (y > window_height - height) { y = window_height - height; vy = 0; }
    let y3 := if y2 > (window_height : ℚ) - sprite.height then
      (window_height : ℚ) - sprite.height else y2
    let vy3 := if y2 > (window_height : ℚ) - sprite.height then 0 else vy2
    { sprite with x := x1, y := y3, vy := vy3 }

/-- Spec-side description of `move` from the claim's words: `vy += gravity;
y += vy; x += vx;` then `y` is clamped into `[0, windowHeight - height]`
(standard clamp, `min hi (max 0 ·)`), with `vy` set to `0` exactly when a
bound fires, and unchanged otherwise. -/
def moveImageClaimSpec (s : ArcadeImageSprite) (gravity : ℚ)
    (window_height : ℤ) (r : ArcadeImageSprite) : Prop :=
  let vy1 := s.vy + gravity
  let y1 := s.y + vy1
  let hi := (window_height : ℚ) - s.height
  r.x = s.x + s.vx ∧ r.vx = s.vx ∧ r.width = s.width ∧ r.height = s.height ∧
  r.y = min hi (max 0 y1) ∧
  r.vy = (if y1 < 0 ∨ max 0 y1 > hi then 0 else vy1)

/-- Same spec-side description for color sprites. -/
def moveClaimSpec (s : ArcadeSprite) (gravity : ℚ)
    (window_height : ℤ) (r : ArcadeSprite) : Prop :=
  let vy1 := s.vy + gravity
  let y1 := s.y + vy1
  let hi := (window_height : ℚ) - s.height
  r.x = s.x + s.vx ∧ r.vx = s.vx ∧ r.width = s.width ∧ r.height = s.height ∧
  r.y = min hi (max 0 y1) ∧
  r.vy = (if y1 < 0 ∨ max 0 y1 > hi then 0 else vy1)

/-- The 40×40 image sprite at (70, 560) of the C1 scenario, with `vy = vx = 0`
and a loaded pixel buffer. -/
def c1Sprite : ArcadeImageSprite :=
  { x := 70, y := 560, width := 40, height := 40, vy := 0, vx := 0,
    pixels := some [0], image_width := 40, image_height := 40, active := 1 }

/-- The C4 scenario sprite: the C1 sprite with `y = 590` and `vy = 5`. -/
def c4Sprite : ArcadeImageSprite := { c1Sprite with y := 590, vy := 5 }

/-- `arcade_move_image_sprite` on an active sprite realises the claimed
integrate-then-clamp description. -/
theorem move_image_meets_spec (s : ArcadeImageSprite) (g : ℚ) (wh : ℤ)
    (h : s.active ≠ 0) :
    moveImageClaimSpec s g wh (arcade_move_image_sprite s g wh) := by
  unfold arcade_move_image_sprite moveImageClaimSpec
  rw [if_neg h]
  dsimp only
  refine ⟨rfl, rfl, rfl, rfl, ?_, ?_⟩ <;>
  · simp only [min_def, max_def]
    split_ifs <;>
      first
        | rfl
        | linarith
        | (push_neg at *; linarith)
        | (rcases ‹_ ∨ _› with hd | hd <;> push_neg at * <;> linarith)

/-- `move_sprite` on an active color sprite realises the same description. -/
theorem move_sprite_meets_spec (s : ArcadeSprite) (g : ℚ) (wh : ℤ)
    (h : s.active ≠ 0) :
    moveClaimSpec s g wh (move_sprite s g wh) := by
  unfold move_sprite moveClaimSpec
  rw [if_neg h]
  dsimp only
  refine ⟨rfl, rfl, rfl, rfl, ?_, ?_⟩ <;>
  · simp only [min_def, max_def]
    split_ifs <;>
      first
        | rfl
        | linarith
        | (push_neg at *; linarith)
        | (rcases ‹_ ∨ _› with hd | hd <;> push_neg at * <;> linarith)

/-- **C1, counterexample.** For the 40×40 image sprite at (70, 560) with
`vy = vx = 0`, one `arcade_move_image_sprite` call with gravity `0.5` and
window height `600` does *not* leave `vy = 0.5` and `y = 560.5`: the
tentative `y = 560.5` exceeds `windowHeight - height = 560`, so the bottom
clamp fires. -/
theorem C1_counterexample :
    ¬ ((arcade_move_image_sprite c1Sprite (1/2) 600).vy = 1/2 ∧
       (arcade_move_image_sprite c1Sprite (1/2) 600).y = 1121/2) := by
  norm_num [arcade_move_image_sprite, c1Sprite]

/-- **C1 (amended).** In an 800×600 window, for a 40×40 image sprite at
position (70, 560) with `vy = 0` and `vx = 0`, calling
`arcade_move_image_sprite` once with gravity `0.5` and `windowHeight = 600`
leaves the sprite with `y = 560` and `vy = 0`: the integrated position
`560.5` exceeds `windowHeight - height = 560`, so the bottom clamp is
applied and zeroes `vy`; `x` stays `70`. -/
theorem C1_amended_clamp_applies :
    (arcade_move_image_sprite c1Sprite (1/2) 600).y = 560 ∧
    (arcade_move_image_sprite c1Sprite (1/2) 600).vy = 0 ∧
    (arcade_move_image_sprite c1Sprite (1/2) 600).x = 70 := by
  norm_num [arcade_move_image_sprite, c1Sprite]

/-- **C4.** For every active sprite (image or color), `move` performs
`vy += gravity; y += vy; x += vx;` and then clamps `y` into
`[0, windowHeight - height]` (as `min (windowHeight - height) (max 0 ·)`),
setting `vy` to `0` exactly when a bound fires; in particular the sprite
with `y = 590`, `vy = 5`, `height = 40` moved with gravity `0.5` in a
600-high window ends at `y = 560` with `vy = 0`. -/
theorem C4_move_integrates_then_clamps :
    (∀ (s : ArcadeImageSprite) (g : ℚ) (wh : ℤ), s.active ≠ 0 →
      moveImageClaimSpec s g wh (arcade_move_image_sprite s g wh)) ∧
    (∀ (s : ArcadeSprite) (g : ℚ) (wh : ℤ), s.active ≠ 0 →
      moveClaimSpec s g wh (move_sprite s g wh)) ∧
    (arcade_move_image_sprite c4Sprite (1/2) 600).y = 560 ∧
    (arcade_move_image_sprite c4Sprite (1/2) 600).vy = 0 :=
  ⟨move_image_meets_spec, move_sprite_meets_spec,
    by norm_num [arcade_move_image_sprite, c4Sprite, c1Sprite]⟩

/-- **C4, witness.** The general part of C4 instantiated at the concrete C1
sprite with gravity `0.5` and window height `600`. -/
theorem C4_move_integrates_then_clamps_witness :
    moveImageClaimSpec c1Sprite (1/2) 600
      (arcade_move_image_sprite c1Sprite (1/2) 600) :=
  C4_move_integrates_then_clamps.1 c1Sprite (1/2) 600
    (by norm_num [c1Sprite])

/-! ## Collision engine -/

/-- `check_collision` (arcade.h lines 1603-1611): AABB test over color
sprites with `NULL` and inactive guards; the C `&&`-chain returns 1/0. -/
def check_collision (a b : Option ArcadeSprite) : ℤ :=
  match a, b with
  | some sa, some sb =>
      if sa.active = 0 ∨ sb.active = 0 then 0
      else if sa.x < sb.x + sb.width ∧ sa.x + sa.width > sb.x ∧
              sa.y < sb.y + sb.height ∧ sa.y + sa.height > sb.y then 1 else 0
  | _, _ => 0

/-- `arcade_check_collision` (arcade.h lines 1613-1618): `NULL` guard then
`check_collision`. -/
def arcade_check_collision (a b : Option ArcadeSprite) : ℤ :=
  match a, b with
  | some _, some _ => check_collision a b
  | _, _ => 0

/-- `arcade_check_image_collision` (arcade.h lines 1620-1628): the same AABB
test over image sprites. -/
def arcade_check_image_collision (a b : Option ArcadeImageSprite) : ℤ :=
  match a, b with
  | some sa, some sb =>
      if sa.active = 0 ∨ sb.active = 0 then 0
      else if sa.x < sb.x + sb.width ∧ sa.x + sa.width > sb.x ∧
              sa.y < sb.y + sb.height ∧ sa.y + sa.height > sb.y then 1 else 0
  | _, _ => 0

/-- **C7.** The collision test returns 1 iff both operands are non-null and
active and each rectangle's minimum coordinate is strictly below the other's
maximum on both axes; null or inactive operands give 0 regardless of
geometry; and the result is symmetric — for the image-sprite entry point and
for the color-sprite one. -/
theorem C7_collision_characterisation :
    (∀ a b : Option ArcadeImageSprite,
      (arcade_check_image_collision a b = 1 ↔
        ∃ sa sb, a = some sa ∧ b = some sb ∧ sa.active ≠ 0 ∧ sb.active ≠ 0 ∧
          sa.x < sb.x + sb.width ∧ sa.x + sa.width > sb.x ∧
          sa.y < sb.y + sb.height ∧ sa.y + sa.height > sb.y)) ∧
    (∀ a b : Option ArcadeImageSprite,
      (a = none ∨ b = none ∨ (∃ sa, a = some sa ∧ sa.active = 0) ∨
        (∃ sb, b = some sb ∧ sb.active = 0)) →
      arcade_check_image_collision a b = 0) ∧
    (∀ a b : Option ArcadeImageSprite,
      arcade_check_image_collision a b = arcade_check_image_collision b a) ∧
    (∀ a b : Option ArcadeSprite,
      (arcade_check_collision a b = 1 ↔
        ∃ sa sb, a = some sa ∧ b = some sb ∧ sa.active ≠ 0 ∧ sb.active ≠ 0 ∧
          sa.x < sb.x + sb.width ∧ sa.x + sa.width > sb.x ∧
          sa.y < sb.y + sb.height ∧ sa.y + sa.height > sb.y)) ∧
    (∀ a b : Option ArcadeSprite,
      arcade_check_collision a b = arcade_check_collision b a) := by
  refine ⟨?_, ?_, ?_, ?_, ?_⟩
  · rintro (_ | sa) (_ | sb)
    · simp [arcade_check_image_collision]
    · simp [arcade_check_image_collision]
    · simp [arcade_check_image_collision]
    · simp only [arcade_check_image_collision, Option.some.injEq]
      constructor
      · intro hres
        split_ifs at hres with h1 h2
        · exact absurd hres (by norm_num)
        · push_neg at h1
          exact ⟨sa, sb, rfl, rfl, h1.1, h1.2, h2.1, h2.2.1, h2.2.2.1,
            h2.2.2.2⟩
        · exact absurd hres (by norm_num)
      · rintro ⟨sa', sb', ha, hb, hact1, hact2, hx1, hx2, hy1, hy2⟩
        cases ha; cases hb
        rw [if_neg (by push_neg; exact ⟨hact1, hact2⟩),
          if_pos ⟨hx1, hx2, hy1, hy2⟩]
  · rintro (_ | sa) (_ | sb) h
    · rfl
    · rfl
    · rfl
    · rcases h with h | h | ⟨sa', h, ha⟩ | ⟨sb', h, hb⟩
      · exact absurd h (by simp)
      · exact absurd h (by simp)
      · cases h
        simp only [arcade_check_image_collision]
        rw [if_pos (Or.inl ha)]
      · cases h
        simp only [arcade_check_image_collision]
        rw [if_pos (Or.inr hb)]
  · rintro (_ | sa) (_ | sb)
    · rfl
    · rfl
    · rfl
    · simp only [arcade_check_image_collision]
      split_ifs <;> first | rfl | (exfalso; tauto)
  · rintro (_ | sa) (_ | sb)
    · simp [arcade_check_collision, check_collision]
    · simp [arcade_check_collision, check_collision]
    · simp [arcade_check_collision, check_collision]
    · simp only [arcade_check_collision, check_collision, Option.some.injEq]
      constructor
      · intro hres
        split_ifs at hres with h1 h2
        · exact absurd hres (by norm_num)
        · push_neg at h1
          exact ⟨sa, sb, rfl, rfl, h1.1, h1.2, h2.1, h2.2.1, h2.2.2.1,
            h2.2.2.2⟩
        · exact absurd hres (by norm_num)
      · rintro ⟨sa', sb', ha, hb, hact1, hact2, hx1, hx2, hy1, hy2⟩
        cases ha; cases hb
        rw [if_neg (by push_neg; exact ⟨hact1, hact2⟩),
          if_pos ⟨hx1, hx2, hy1, hy2⟩]
  · rintro (_ | sa) (_ | sb)
    · rfl
    · rfl
    · rfl
    · simp only [arcade_check_collision, check_collision]
      split_ifs <;> first | rfl | (exfalso; tauto)

/-- An inactive copy of the C1 sprite, overlapping everything geometrically
at its own position. -/
def inactiveSprite : ArcadeImageSprite := { c1Sprite with active := 0 }

/-- **C7, witness.** The null/inactive clause of C7 applied to a concrete
inactive sprite against the active C1 sprite: the result is 0 even though
the rectangles coincide. -/
theorem C7_collision_characterisation_witness :
    arcade_check_image_collision (some inactiveSprite) (some c1Sprite) = 0 :=
  C7_collision_characterisation.2.1 (some inactiveSprite) (some c1Sprite)
    (Or.inr (Or.inr (Or.inl ⟨inactiveSprite, rfl, rfl⟩)))

/-! ## Sprite groups -/

/-- `ArcadeAnySprite` (arcade.h): a union of the two sprite kinds, stored in
a group alongside an integer kind tag. -/
inductive ArcadeAnySprite where
  | sprite (s : ArcadeSprite)
  | image_sprite (s : ArcadeImageSprite)
  deriving Repr, DecidableEq

/-- `SpriteGroup` (arcade.h): parallel `sprites`/`types` arrays (modelled as
lists whose length is the allocated capacity), a fill `count` and the fixed
`capacity`. -/
structure SpriteGroup where
  sprites : List ArcadeAnySprite
  types : List ℤ
  count : ℤ
  capacity : ℤ
  deriving Repr, DecidableEq

/-- `arcade_add_sprite_to_group` (arcade.h lines 1915-1923): append at index
`count` and bump `count` when `count < capacity`; otherwise do nothing. -/
def arcade_add_sprite_to_group (group : SpriteGroup) (sprite : ArcadeAnySprite)
    (type : ℤ) : SpriteGroup :=
  if group.count < group.capacity then
    { group with
      sprites := group.sprites.set group.count.toNat sprite,
      types := group.types.set group.count.toNat type,
      count := group.count + 1 }
  else group

/-- **C9.** Adding to a full group (`count = capacity`) is a no-op: the
group — its `count` and every stored `(sprite, type)` entry — is returned
unchanged. -/
theorem C9_add_to_full_group_is_noop (group : SpriteGroup)
    (sprite : ArcadeAnySprite) (type : ℤ) (h : group.count = group.capacity) :
    arcade_add_sprite_to_group group sprite type = group := by
  unfold arcade_add_sprite_to_group
  rw [if_neg (by omega)]

/-- **C9, witness.** A concrete full group (capacity 1, count 1) with one
stored color-sprite entry is unchanged by `arcade_add_sprite_to_group`. -/
theorem C9_add_to_full_group_is_noop_witness :
    arcade_add_sprite_to_group
      ⟨[ArcadeAnySprite.image_sprite c1Sprite], [1], 1, 1⟩
      (ArcadeAnySprite.image_sprite c4Sprite) 1 =
      ⟨[ArcadeAnySprite.image_sprite c1Sprite], [1], 1, 1⟩ :=
  C9_add_to_full_group_is_noop
    ⟨[ArcadeAnySprite.image_sprite c1Sprite], [1], 1, 1⟩
    (ArcadeAnySprite.image_sprite c4Sprite) 1 rfl

/-! ## Input state tracker

`key_states` / `last_key_states` (arcade.h lines 1014-1015) are 256-entry
int tables indexed by `key & 0xFF`; the event pump writes `key_states`
(lines 1404, 1409), `arcade_key_pressed_once` reads both and writes
`last_key_states` (lines 1532-1547, X11 branch). -/

/-- The two per-key state tables (0 = up, 1 = down). -/
structure KeyTables where
  key_states : ℕ → ℤ
  last_key_states : ℕ → ℤ

/-- Both tables all-up, as at startup (and after `arcade_clear_keys`). -/
def initialKeyTables : KeyTables := ⟨fun _ => 0, fun _ => 0⟩

/-- `arcade_key_pressed_once` (arcade.h lines 1532-1547): reads
`key_states[key & 0xFF]` and `last_key_states[key & 0xFF]`, stores the
current state into `last_key_states`, and returns 2 exactly on a 0→1 edge,
else 0. -/
def arcade_key_pressed_once (key_val : ℕ) (s : KeyTables) : ℤ × KeyTables :=
  let key := key_val % 256
  let current := s.key_states key
  let last := s.last_key_states key
  (if current = 1 ∧ last = 0 then 2 else 0,
   { s with last_key_states :=
      fun i => if i = key then current else s.last_key_states i })

/-- Event-pump key-press handler: `key_states[keysym & 0xFF] = 1`. -/
def key_down_event (keysym : ℕ) (s : KeyTables) : KeyTables :=
  { s with key_states :=
      fun i => if i = keysym % 256 then 1 else s.key_states i }

/-- Event-pump key-release handler: `key_states[keysym & 0xFF] = 0`. -/
def key_up_event (keysym : ℕ) (s : KeyTables) : KeyTables :=
  { s with key_states :=
      fun i => if i = keysym % 256 then 0 else s.key_states i }

/-- An input event relevant to one tick: a key going down, a key going up,
or the game querying `arcade_key_pressed_once`. -/
inductive KeyOp where
  | down (k : ℕ)
  | up (k : ℕ)
  | query (k : ℕ)
  deriving Repr, DecidableEq

/-- State effect of one event. -/
def applyKeyOp (s : KeyTables) : KeyOp → KeyTables
  | .down k => key_down_event k s
  | .up k => key_up_event k s
  | .query k => (arcade_key_pressed_once k s).2

/-- Run an event sequence, collecting `(cell index, result)` for each
`arcade_key_pressed_once` query. -/
def runQueries (s : KeyTables) : List KeyOp → List (ℕ × ℤ)
  | [] => []
  | .query k :: rest =>
      (k % 256, (arcade_key_pressed_once k s).1) ::
        runQueries (applyKeyOp s (.query k)) rest
  | .down k :: rest => runQueries (applyKeyOp s (.down k)) rest
  | .up k :: rest => runQueries (applyKeyOp s (.up k)) rest

/-- The results of the queries that hit key `k`'s table cell. -/
def resultsFor (k : ℕ) (s : KeyTables) (ops : List KeyOp) : List ℤ :=
  (runQueries s ops).filterMap fun p => if p.1 = k % 256 then some p.2 else none

/-- No event in `ops` releases key `k`'s table cell. -/
def noUpFor (k : ℕ) (ops : List KeyOp) : Prop :=
  ∀ j, KeyOp.up j ∈ ops → j % 256 ≠ k % 256

theorem saturated_cell_all_zero (k : ℕ) (ops : List KeyOp) :
    ∀ s : KeyTables, noUpFor k ops →
      s.key_states (k % 256) = 1 → s.last_key_states (k % 256) = 1 →
      ∀ r ∈ resultsFor k s ops, r = 0 := by
  induction ops with
  | nil =>
    intro s _ _ _ r hr
    simp [resultsFor, runQueries] at hr
  | cons op rest ih =>
    intro s hno hcur hlast
    have hno' : noUpFor k rest := fun j hj => hno j (List.mem_cons_of_mem _ hj)
    cases op with
    | down j =>
      intro r hr
      rw [resultsFor, runQueries] at hr
      refine ih (applyKeyOp s (.down j)) hno' ?_ hlast r hr
      show (if k % 256 = j % 256 then (1:ℤ) else s.key_states (k % 256)) = 1
      split_ifs with hc
      · rfl
      · exact hcur
    | up j =>
      intro r hr
      rw [resultsFor, runQueries] at hr
      have hne := hno j (List.mem_cons_self _ _)
      refine ih (applyKeyOp s (.up j)) hno' ?_ hlast r hr
      show (if k % 256 = j % 256 then (0:ℤ) else s.key_states (k % 256)) = 1
      rw [if_neg (fun hh => hne hh.symm)]
      exact hcur
    | query j =>
      intro r hr
      rw [resultsFor, runQueries] at hr
      by_cases hjk : j % 256 = k % 256
      · rw [List.filterMap_cons] at hr
        simp only [if_pos hjk] at hr
        have hres : (arcade_key_pressed_once j s).1 = 0 := by
          simp only [arcade_key_pressed_once]
          rw [if_neg]
          rintro ⟨-, hl0⟩
          rw [hjk, hlast] at hl0
          exact absurd hl0 one_ne_zero
        rcases List.mem_cons.mp hr with h0 | hrest
        · rw [h0, hres]
        · refine ih (applyKeyOp s (.query j)) hno' hcur ?_ r hrest
          show (if k % 256 = j % 256 then s.key_states (j % 256)
            else s.last_key_states (k % 256)) = 1
          rw [if_pos hjk.symm, hjk, hcur]
      · rw [List.filterMap_cons] at hr
        simp only [if_neg (fun hh : j % 256 = k % 256 => hjk hh)] at hr
        refine ih (applyKeyOp s (.query j)) hno' hcur ?_ r hr
        show (if k % 256 = j % 256 then s.key_states (j % 256)
          else s.last_key_states (k % 256)) = 1
        rw [if_neg (fun hh => hjk hh.symm)]
        exact hlast

end Arcade

namespace Arcade

theorem at_most_one_nonzero (k : ℕ) (ops : List KeyOp) :
    ∀ s : KeyTables, noUpFor k ops →
      (resultsFor k s ops).countP (fun r => decide (r ≠ 0)) ≤ 1 := by
  induction ops with
  | nil =>
    intro s _
    simp [resultsFor, runQueries]
  | cons op rest ih =>
    intro s hno
    have hno' : noUpFor k rest := fun j hj => hno j (List.mem_cons_of_mem _ hj)
    cases op with
    | down j =>
      rw [resultsFor, runQueries]
      exact ih (applyKeyOp s (.down j)) hno'
    | up j =>
      rw [resultsFor, runQueries]
      exact ih (applyKeyOp s (.up j)) hno'
    | query j =>
      rw [resultsFor, runQueries]
      by_cases hjk : j % 256 = k % 256
      · rw [List.filterMap_cons]
        simp only [if_pos hjk]
        rw [List.countP_cons]
        by_cases hz : (arcade_key_pressed_once j s).1 = 0
        · have hpz : decide ((arcade_key_pressed_once j s).1 ≠ 0) = false := by
            simp [hz]
          rw [hpz]
          simp only [Bool.false_eq_true, if_false, Nat.add_zero]
          exact ih (applyKeyOp s (.query j)) hno'
        · -- the edge fired: current = 1, last = 0; afterwards the cell is
          -- saturated, so every later aliased query returns 0
          have hcond : s.key_states (j % 256) = 1 ∧
              s.last_key_states (j % 256) = 0 := by
            by_contra hc
            exact hz (by simp only [arcade_key_pressed_once]; rw [if_neg hc])
          have hall := saturated_cell_all_zero k rest
            (applyKeyOp s (.query j)) hno'
            (by
              show s.key_states (k % 256) = 1
              rw [← hjk]; exact hcond.1)
            (by
              show (if k % 256 = j % 256 then s.key_states (j % 256)
                else s.last_key_states (k % 256)) = 1
              rw [if_pos hjk.symm]; exact hcond.1)
          have hzero : (resultsFor k (applyKeyOp s (.query j)) rest).countP
              (fun r => decide (r ≠ 0)) = 0 :=
            List.countP_eq_zero.mpr (fun a ha => by simp [hall a ha])
          rw [resultsFor] at hzero
          rw [hzero]
          split_ifs <;> omega
      · rw [List.filterMap_cons]
        simp only [if_neg (fun hh : j % 256 = k % 256 => hjk hh)]
        exact ih (applyKeyOp s (.query j)) hno'

lemma resultsFor_nil (k : ℕ) (s : KeyTables) : resultsFor k s [] = [] := rfl

lemma resultsFor_down (k j : ℕ) (s : KeyTables) (rest : List KeyOp) :
    resultsFor k s (.down j :: rest) =
      resultsFor k (applyKeyOp s (.down j)) rest := by
  rw [resultsFor, runQueries, resultsFor]

lemma resultsFor_up (k j : ℕ) (s : KeyTables) (rest : List KeyOp) :
    resultsFor k s (.up j :: rest) =
      resultsFor k (applyKeyOp s (.up j)) rest := by
  rw [resultsFor, runQueries, resultsFor]

lemma resultsFor_query_self (k : ℕ) (s : KeyTables) (rest : List KeyOp) :
    resultsFor k s (.query k :: rest) =
      (arcade_key_pressed_once k s).1 ::
        resultsFor k (applyKeyOp s (.query k)) rest := by
  rw [resultsFor, runQueries, List.filterMap_cons]
  simp only [if_pos rfl]
  rfl

lemma runQueries_append (s : KeyTables) (l1 l2 : List KeyOp) :
    runQueries s (l1 ++ l2) =
      runQueries s l1 ++ runQueries (l1.foldl applyKeyOp s) l2 := by
  induction l1 generalizing s with
  | nil => rfl
  | cons op rest ih =>
    cases op <;>
      simp only [List.cons_append, runQueries, List.foldl_cons,
        List.append_eq, ih]

lemma resultsFor_append (k : ℕ) (s : KeyTables) (l1 l2 : List KeyOp) :
    resultsFor k s (l1 ++ l2) =
      resultsFor k s l1 ++ resultsFor k (l1.foldl applyKeyOp s) l2 := by
  rw [resultsFor, runQueries_append, List.filterMap_append, resultsFor,
    resultsFor]

lemma cur_down_self (k : ℕ) (s : KeyTables) :
    (applyKeyOp s (.down k)).key_states (k % 256) = 1 := by
  show (if k % 256 = k % 256 then (1:ℤ) else _) = 1
  rw [if_pos rfl]

lemma cur_up_self (k : ℕ) (s : KeyTables) :
    (applyKeyOp s (.up k)).key_states (k % 256) = 0 := by
  show (if k % 256 = k % 256 then (0:ℤ) else _) = 0
  rw [if_pos rfl]

lemma last_query_self (k : ℕ) (s : KeyTables) :
    (applyKeyOp s (.query k)).last_key_states (k % 256) =
      s.key_states (k % 256) := by
  show (if k % 256 = k % 256 then _ else _) = _
  rw [if_pos rfl]

lemma result_query (k : ℕ) (s : KeyTables) :
    (arcade_key_pressed_once k s).1 =
      if s.key_states (k % 256) = 1 ∧ s.last_key_states (k % 256) = 0
      then 2 else 0 := rfl

theorem replicate_queries_saturated (k : ℕ) (n : ℕ) :
    ∀ s : KeyTables, s.key_states (k % 256) = 1 →
      s.last_key_states (k % 256) = 1 →
      resultsFor k s (List.replicate n (KeyOp.query k)) = List.replicate n 0 ∧
      ((List.replicate n (KeyOp.query k)).foldl applyKeyOp s).key_states
        (k % 256) = 1 ∧
      ((List.replicate n (KeyOp.query k)).foldl applyKeyOp s).last_key_states
        (k % 256) = 1 := by
  induction n with
  | zero => intro s hc hl; exact ⟨rfl, hc, hl⟩
  | succ m ih =>
    intro s hc hl
    rw [List.replicate_succ, resultsFor_query_self, List.foldl_cons]
    have hstep := ih (applyKeyOp s (.query k))
      (by show s.key_states (k % 256) = 1; exact hc)
      (by rw [last_query_self]; exact hc)
    refine ⟨?_, hstep.2.1, hstep.2.2⟩
    rw [hstep.1, result_query, if_neg, List.replicate_succ]
    rintro ⟨-, h0⟩
    rw [hl] at h0
    exact absurd h0 one_ne_zero

theorem press_hold_release_pattern (k : ℕ) (N : ℕ) (s : KeyTables)
    (hN : 1 ≤ N) (_hcur : s.key_states (k % 256) = 0)
    (hlast : s.last_key_states (k % 256) = 0) :
    resultsFor k s (KeyOp.down k ::
        (List.replicate N (KeyOp.query k) ++
          [KeyOp.up k, KeyOp.query k, KeyOp.down k, KeyOp.query k])) =
      2 :: (List.replicate (N - 1) 0 ++ [0, 2]) := by
  obtain ⟨m, rfl⟩ : ∃ m, N = m + 1 := ⟨N - 1, by omega⟩
  rw [resultsFor_down]
  set s1 := applyKeyOp s (.down k) with hs1
  have hc1 : s1.key_states (k % 256) = 1 := cur_down_self k s
  have hl1 : s1.last_key_states (k % 256) = 0 := hlast
  rw [List.replicate_succ, List.cons_append, resultsFor_query_self]
  set s2 := applyKeyOp s1 (.query k) with hs2
  have hc2 : s2.key_states (k % 256) = 1 := hc1
  have hl2 : s2.last_key_states (k % 256) = 1 := by
    rw [hs2, last_query_self]; exact hc1
  have hfirst : (arcade_key_pressed_once k s1).1 = 2 := by
    rw [result_query, if_pos ⟨hc1, hl1⟩]
  rw [hfirst, resultsFor_append]
  have hrep := replicate_queries_saturated k m s2 hc2 hl2
  rw [hrep.1]
  set s3 := (List.replicate m (KeyOp.query k)).foldl applyKeyOp s2 with hs3
  have hc3 : s3.key_states (k % 256) = 1 := hrep.2.1
  have hl3 : s3.last_key_states (k % 256) = 1 := hrep.2.2
  rw [resultsFor_up]
  set s4 := applyKeyOp s3 (.up k) with hs4
  have hc4 : s4.key_states (k % 256) = 0 := cur_up_self k s3
  have hl4 : s4.last_key_states (k % 256) = 1 := hl3
  rw [resultsFor_query_self]
  have hq2 : (arcade_key_pressed_once k s4).1 = 0 := by
    rw [result_query, if_neg]
    rintro ⟨h1, -⟩
    rw [hc4] at h1
    exact absurd h1 zero_ne_one
  set s5 := applyKeyOp s4 (.query k) with hs5
  have hc5 : s5.key_states (k % 256) = 0 := hc4
  have hl5 : s5.last_key_states (k % 256) = 0 := by
    rw [hs5, last_query_self]; exact hc4
  rw [hq2, resultsFor_down]
  set s6 := applyKeyOp s5 (.down k) with hs6
  have hc6 : s6.key_states (k % 256) = 1 := cur_down_self k s5
  have hl6 : s6.last_key_states (k % 256) = 0 := hl5
  rw [resultsFor_query_self]
  have hq3 : (arcade_key_pressed_once k s6).1 = 2 := by
    rw [result_query, if_pos ⟨hc6, hl6⟩]
  rw [hq3, resultsFor_nil]
  simp only [Nat.add_sub_cancel]

lemma second_query_same_tick (k : ℕ) (s : KeyTables) :
    (arcade_key_pressed_once k (arcade_key_pressed_once k s).2).1 = 0 := by
  have h2 : (arcade_key_pressed_once k s).2 = applyKeyOp s (.query k) := rfl
  rw [h2, result_query, last_query_self]
  rw [if_neg]
  rintro ⟨h1, h0⟩
  have : (applyKeyOp s (.query k)).key_states (k % 256) =
      s.key_states (k % 256) := rfl
  rw [this] at h1
  rw [h1] at h0
  exact absurd h0 one_ne_zero

/-- **C3.** `arcade_key_pressed_once` is edge-triggered and consuming:
(1) in any event sequence that never releases key `k`'s table cell, the
queries hitting that cell return a nonzero value at most once;
(2) starting from an idle cell, pressing the key and querying once per tick
for `N` ticks returns `2` on the first query and `0` on the rest, and after
a release (with its tick's query) and a re-press the next query returns `2`
again;
(3) a second call for the same key in the same tick always returns `0`,
because the first call copied the current state into `last_key_states`. -/
theorem C3_pressed_once_at_most_once_per_press :
    (∀ (k : ℕ) (ops : List KeyOp) (s : KeyTables), noUpFor k ops →
      (resultsFor k s ops).countP (fun r => decide (r ≠ 0)) ≤ 1) ∧
    (∀ (k N : ℕ) (s : KeyTables), 1 ≤ N →
      s.key_states (k % 256) = 0 → s.last_key_states (k % 256) = 0 →
      resultsFor k s (KeyOp.down k ::
          (List.replicate N (KeyOp.query k) ++
            [KeyOp.up k, KeyOp.query k, KeyOp.down k, KeyOp.query k])) =
        2 :: (List.replicate (N - 1) 0 ++ [0, 2])) ∧
    (∀ (k : ℕ) (s : KeyTables),
      (arcade_key_pressed_once k (arcade_key_pressed_once k s).2).1 = 0) :=
  ⟨fun k ops s h => at_most_one_nonzero k ops s h,
   fun k N s hN h0 h1 => press_hold_release_pattern k N s hN h0 h1,
   fun k s => second_query_same_tick k s⟩

/-- **C3, witness.** The three parts of C3 at concrete inputs: key 65 held
over two query ticks starting from the initial (all-up) tables. -/
theorem C3_pressed_once_at_most_once_per_press_witness :
    (resultsFor 65 initialKeyTables
        [KeyOp.down 65, KeyOp.query 65, KeyOp.query 65]).countP
      (fun r => decide (r ≠ 0)) ≤ 1 ∧
    resultsFor 65 initialKeyTables (KeyOp.down 65 ::
        (List.replicate 2 (KeyOp.query 65) ++
          [KeyOp.up 65, KeyOp.query 65, KeyOp.down 65, KeyOp.query 65])) =
      2 :: (List.replicate 1 0 ++ [0, 2]) ∧
    (arcade_key_pressed_once 65
      (arcade_key_pressed_once 65 initialKeyTables).2).1 = 0 :=
  ⟨C3_pressed_once_at_most_once_per_press.1 65
      [KeyOp.down 65, KeyOp.query 65, KeyOp.query 65] initialKeyTables
      (by intro j hj; simp at hj),
   C3_pressed_once_at_most_once_per_press.2.1 65 2 initialKeyTables
      (by omega) rfl rfl,
   C3_pressed_once_at_most_once_per_press.2.2 65 initialKeyTables⟩

/-! ## Image asset loader

`load_image_sprite` (arcade.h lines 1630-1678) runs four fallible stages:
`stbi_load` (decode), `malloc` of the resize buffer, `stbir_resize_uint8_srgb`,
and `malloc` of the packed pixel buffer.  The external-library/allocator
outcomes for one filename are an oracle `LoadEnv`; `none` in place of a
`LoadEnv` models a `NULL` filename. -/

/-- Oracle outcomes of the external stages for one `filename`. -/
structure LoadEnv where
  /-- `stbi_load` result: raw RGBA bytes and source dimensions, `none` on a
  missing/corrupt file. -/
  decode : Option (List ℕ × ℤ × ℤ)
  /-- whether `malloc` of `resized_data` succeeds -/
  resized_alloc_ok : Bool
  /-- `stbir_resize_uint8_srgb` output bytes, `none` on resize failure -/
  resize : Option (List ℕ)
  /-- whether `malloc` of `sprite->pixels` succeeds -/
  pixels_alloc_ok : Bool
  deriving Repr, DecidableEq

/-- The packing loop of `load_image_sprite` (lines 1663-1671):
`pixels[y*tw+x] = (r << 16) | (g << 8) | b | (a << 24)` over the resized
RGBA bytes, linearised over `i = y*tw + x`; stores are 32-bit. -/
def repack_pixels (resized : List ℕ) (tw th : ℤ) : List ℕ :=
  (List.range (th.toNat * tw.toNat)).map fun i =>
    ((resized.getD (4 * i) 0 <<< 16) |||
     (resized.getD (4 * i + 1) 0 <<< 8) |||
     resized.getD (4 * i + 2) 0 |||
     (resized.getD (4 * i + 3) 0 <<< 24)) % 2 ^ 32

/-- `load_image_sprite` (arcade.h lines 1630-1678): returns the C status
(0 success / 1 failure) together with the updated sprite (the C function
mutates through a pointer).  Failure paths return exactly what the C code
leaves behind: in particular `active` is only ever written on success. -/
def load_image_sprite (env : LoadEnv) (sprite : ArcadeImageSprite)
    (target_width target_height : ℤ) : ℤ × ArcadeImageSprite :=
  match env.decode with
  | none => (1, sprite)
  | some (_, _, _) =>
      if ¬env.resized_alloc_ok then (1, sprite)
      else
        match env.resize with
        | none => (1, sprite)
        | some resized =>
            let s1 := { sprite with image_width := target_width,
                                    image_height := target_height }
            if ¬env.pixels_alloc_ok then (1, { s1 with pixels := none })
            else
              (0, { s1 with
                      pixels := some (repack_pixels resized target_width
                        target_height),
                      width := (target_width : ℚ),
                      height := (target_height : ℚ),
                      active := 1 })

/-- C cast `(int)q` for a nonnegative-or-negative float: truncation toward
zero. -/
def c_int_of_float (q : ℚ) : ℤ := q.num.tdiv q.den

/-- `arcade_create_image_sprite` (arcade.h lines 1680-1689): initialises the
sprite with `active = 1` and `pixels = NULL`, calls `load_image_sprite`
when `filename` is non-`NULL`, and nulls `pixels` on failure.  `env = none`
models a `NULL` filename. -/
def arcade_create_image_sprite (x y w h : ℚ) (env : Option LoadEnv) :
    ArcadeImageSprite :=
  let sprite : ArcadeImageSprite :=
    { x := x, y := y, width := 0, height := 0, vy := 0, vx := 0,
      pixels := none, image_width := 0, image_height := 0, active := 1 }
  match env with
  | none => sprite
  | some e =>
      let r := load_image_sprite e sprite (c_int_of_float w) (c_int_of_float h)
      if r.1 ≠ 0 then { r.2 with pixels := none } else r.2

/-- `arcade_free_image_sprite` (arcade.h lines 1691-1701): frees and nulls
the buffer and clears dimensions and `active`, when a buffer is owned. -/
def arcade_free_image_sprite (sprite : ArcadeImageSprite) :
    ArcadeImageSprite :=
  if sprite.pixels.isSome then
    { sprite with pixels := none, image_width := 0, image_height := 0,
                  active := 0 }
  else sprite

/-! ## Animated sprites -/

/-- `ArcadeAnimatedSprite` (arcade.h): frame array, frame count, current
frame index, advance interval and advance counter. -/
structure ArcadeAnimatedSprite where
  frames : List ArcadeImageSprite
  frame_count : ℤ
  current_frame : ℤ
  frame_interval : ℤ
  frame_counter : ℤ
  deriving Repr, DecidableEq

/-- `(ArcadeAnimatedSprite){0}`: the all-zero struct returned on failure. -/
def emptyAnimatedSprite : ArcadeAnimatedSprite :=
  { frames := [], frame_count := 0, current_frame := 0, frame_interval := 0,
    frame_counter := 0 }

/-- Result of `arcade_create_animated_sprite`: the returned animation plus
the final state of the frames released by the rollback path (empty on
success), so that "every previously loaded buffer is freed" is statable. -/
structure AnimCreateResult where
  anim : ArcadeAnimatedSprite
  freed : List ArcadeImageSprite
  deriving Repr, DecidableEq

/-- The frame-loading loop of `arcade_create_animated_sprite` (lines
1709-1719): load each frame in order; on the first failure free every
previously loaded frame and report failure.  `acc` holds the frames loaded
so far, in order. -/
def create_frames (x y w h : ℚ) :
    List (Option LoadEnv) → List ArcadeImageSprite →
      Option (List ArcadeImageSprite) × List ArcadeImageSprite
  | [], acc => (some acc, [])
  | e :: rest, acc =>
      let f := arcade_create_image_sprite x y w h e
      if f.pixels = none then (none, acc.map arcade_free_image_sprite)
      else create_frames x y w h rest (acc ++ [f])

/-- `arcade_create_animated_sprite` (arcade.h lines 1703-1722).  On any
frame failure the rollback in `create_frames` runs, the frames array is
freed and `(ArcadeAnimatedSprite){0}` is returned.  On success
`frames[0].active = 1` is set.  (With `frame_count = 0` the C code would
write `frames[0]` out of bounds of a zero-byte `malloc`; the model performs
no write in that case.) -/
def arcade_create_animated_sprite (x y w h : ℚ)
    (envs : List (Option LoadEnv)) (frame_interval : ℤ) : AnimCreateResult :=
  match create_frames x y w h envs [] with
  | (none, freed) => ⟨emptyAnimatedSprite, freed⟩
  | (some frames, _) =>
      let frames1 := match frames with
        | [] => []
        | f :: rest => { f with active := 1 } :: rest
      ⟨{ frames := frames1, frame_count := (envs.length : ℤ),
         current_frame := 0, frame_interval := frame_interval,
         frame_counter := 0 }, []⟩

/-- The pose-replication loop of `arcade_move_animated_sprite` (lines
1741-1747): copy `current`'s position/velocity onto the first `n` frames. -/
def syncFirst (n : ℕ) (pose : ArcadeImageSprite) :
    List ArcadeImageSprite → List ArcadeImageSprite
  | [] => []
  | f :: rest =>
      match n with
      | 0 => f :: rest
      | Nat.succ m =>
          { f with x := pose.x, y := pose.y, vx := pose.vx, vy := pose.vy } ::
            syncFirst m pose rest

/-- `arcade_move_animated_sprite` (arcade.h lines 1735-1753): guard on
`frames[0].active`, apply the physics helper to the current frame, replicate
its pose to all frames, then `if (++frame_counter >= frame_interval)`
advance `current_frame` modulo `frame_count` (C truncated `%`) and reset the
counter. -/
def arcade_move_animated_sprite (anim : ArcadeAnimatedSprite) (gravity : ℚ)
    (window_height : ℤ) : ArcadeAnimatedSprite :=
  if (anim.frames.getD 0 emptyImageSprite).active = 0 then anim
  else
    let current := arcade_move_image_sprite
      (anim.frames.getD anim.current_frame.toNat emptyImageSprite) gravity
      window_height
    let frames1 := syncFirst anim.frame_count.toNat current anim.frames
    if anim.frame_counter + 1 ≥ anim.frame_interval then
      { anim with frames := frames1,
                  current_frame := (anim.current_frame + 1).tmod
                    anim.frame_count,
                  frame_counter := 0 }
    else
      { anim with frames := frames1,
                  frame_counter := anim.frame_counter + 1 }

lemma free_image_sprite_pixels_none (s : ArcadeImageSprite) :
    (arcade_free_image_sprite s).pixels = none := by
  unfold arcade_free_image_sprite
  split_ifs with h
  · rfl
  · exact Option.not_isSome_iff_eq_none.mp h

lemma create_frames_fail (x y w h : ℚ) (envs : List (Option LoadEnv)) :
    ∀ acc : List ArcadeImageSprite,
      (∃ e ∈ envs, (arcade_create_image_sprite x y w h e).pixels = none) →
      ∃ freed, create_frames x y w h envs acc = (none, freed) ∧
        ∀ f ∈ freed, f.pixels = none := by
  induction envs with
  | nil =>
    intro acc hfail
    obtain ⟨e, he, -⟩ := hfail
    exact absurd he (List.not_mem_nil e)
  | cons e rest ih =>
    intro acc hfail
    rw [create_frames]
    by_cases hf : (arcade_create_image_sprite x y w h e).pixels = none
    · rw [if_pos hf]
      refine ⟨acc.map arcade_free_image_sprite, rfl, ?_⟩
      intro f hfm
      obtain ⟨g, -, rfl⟩ := List.mem_map.mp hfm
      exact free_image_sprite_pixels_none g
    · rw [if_neg hf]
      obtain ⟨e', he', hp⟩ := hfail
      rcases List.mem_cons.mp he' with rfl | hmem
      · exact absurd hp hf
      · exact ih _ ⟨e', hmem, hp⟩

/-- **C5.** If loading any frame fails (at any position in the list),
`arcade_create_animated_sprite` returns the all-zero animation — no frames
array, `frame_count = 0` — and every frame loaded before the failure has
been passed through `arcade_free_image_sprite`, so its pixel buffer is
released.  Construction is all-or-nothing. -/
theorem C5_animated_sprite_all_or_nothing (x y w h : ℚ)
    (envs : List (Option LoadEnv)) (frame_interval : ℤ)
    (hfail : ∃ e ∈ envs, (arcade_create_image_sprite x y w h e).pixels = none) :
    (arcade_create_animated_sprite x y w h envs frame_interval).anim =
      emptyAnimatedSprite ∧
    ∀ f ∈ (arcade_create_animated_sprite x y w h envs frame_interval).freed,
      f.pixels = none := by
  obtain ⟨freed, heq, hnone⟩ := create_frames_fail x y w h envs [] hfail
  unfold arcade_create_animated_sprite
  rw [heq]
  exact ⟨rfl, hnone⟩

/-- A fully successful load oracle: decode, buffer allocation, resize and
pixel allocation all succeed on a 1×1 image. -/
def goodEnv : LoadEnv :=
  { decode := some ([0, 0, 0, 0], 1, 1), resized_alloc_ok := true,
    resize := some [0, 0, 0, 0], pixels_alloc_ok := true }

/-- A missing/corrupt file: `stbi_load` returns `NULL`. -/
def badEnv : LoadEnv :=
  { decode := none, resized_alloc_ok := true, resize := some [0, 0, 0, 0],
    pixels_alloc_ok := true }

/-- **C5, witness.** One valid frame followed by one invalid frame yields
the empty animation with the loaded frame's buffer released. -/
theorem C5_animated_sprite_all_or_nothing_witness :
    (arcade_create_animated_sprite 0 0 1 1 [some goodEnv, some badEnv]
        5).anim = emptyAnimatedSprite ∧
    ∀ f ∈ (arcade_create_animated_sprite 0 0 1 1 [some goodEnv, some badEnv]
        5).freed, f.pixels = none :=
  C5_animated_sprite_all_or_nothing 0 0 1 1 [some goodEnv, some badEnv] 5
    ⟨some badEnv, by simp, rfl⟩

lemma syncFirst_getD_zero_active (n : ℕ) (pose : ArcadeImageSprite)
    (l : List ArcadeImageSprite) :
    ((syncFirst n pose l).getD 0 emptyImageSprite).active =
      (l.getD 0 emptyImageSprite).active := by
  cases l with
  | nil => cases n <;> rfl
  | cons f rest => cases n <;> rfl

/-- Field-level description of one `arcade_move_animated_sprite` step when
the first frame is active. -/
lemma advance_fields (a : ArcadeAnimatedSprite) (g : ℚ) (wh : ℤ)
    (hact : (a.frames.getD 0 emptyImageSprite).active ≠ 0) :
    (arcade_move_animated_sprite a g wh).frame_count = a.frame_count ∧
    (arcade_move_animated_sprite a g wh).frame_interval = a.frame_interval ∧
    (arcade_move_animated_sprite a g wh).current_frame =
      (if a.frame_counter + 1 ≥ a.frame_interval
        then (a.current_frame + 1).tmod a.frame_count
        else a.current_frame) ∧
    (arcade_move_animated_sprite a g wh).frame_counter =
      (if a.frame_counter + 1 ≥ a.frame_interval then 0
        else a.frame_counter + 1) ∧
    ((arcade_move_animated_sprite a g wh).frames.getD 0
        emptyImageSprite).active =
      (a.frames.getD 0 emptyImageSprite).active := by
  unfold arcade_move_animated_sprite
  rw [if_neg hact]
  dsimp only
  split_ifs with h
  · exact ⟨rfl, rfl, rfl, rfl, syncFirst_getD_zero_active _ _ _⟩
  · exact ⟨rfl, rfl, rfl, rfl, syncFirst_getD_zero_active _ _ _⟩

/-- The advance-counter dynamics within one interval block: while
`frame_counter + j` stays below `frame_interval`, `j` calls only increment
the counter and preserve everything else. -/
lemma advance_iter_below (g : ℚ) (wh : ℤ) (j : ℕ) :
    ∀ a : ArcadeAnimatedSprite,
      (a.frames.getD 0 emptyImageSprite).active ≠ 0 →
      a.frame_counter + (j : ℤ) < a.frame_interval →
      ((fun a' => arcade_move_animated_sprite a' g wh)^[j] a).frame_counter =
          a.frame_counter + (j : ℤ) ∧
      ((fun a' => arcade_move_animated_sprite a' g wh)^[j]
          a).current_frame = a.current_frame ∧
      ((fun a' => arcade_move_animated_sprite a' g wh)^[j]
          a).frame_count = a.frame_count ∧
      ((fun a' => arcade_move_animated_sprite a' g wh)^[j]
          a).frame_interval = a.frame_interval ∧
      (((fun a' => arcade_move_animated_sprite a' g wh)^[j] a).frames.getD 0
          emptyImageSprite).active ≠ 0 := by
  induction j with
  | zero =>
    intro a hact _
    rw [Function.iterate_zero_apply]
    exact ⟨by rw [Nat.cast_zero, add_zero], rfl, rfl, rfl, hact⟩
  | succ m ih =>
    intro a hact hlt
    rw [Function.iterate_succ_apply]
    obtain ⟨hfc, hfi, hcf, hcnt, hact1⟩ := advance_fields a g wh hact
    have hnoadv : ¬ a.frame_counter + 1 ≥ a.frame_interval := by
      push_cast at hlt
      omega
    rw [if_neg hnoadv] at hcf hcnt
    have hih := ih (arcade_move_animated_sprite a g wh)
      (by rw [hact1]; exact hact)
      (by rw [hcnt, hfi]; push_cast at hlt ⊢; omega)
    refine ⟨?_, ?_, ?_, ?_, hih.2.2.2.2⟩
    · rw [hih.1, hcnt]
      push_cast
      ring
    · rw [hih.2.1, hcf]
    · rw [hih.2.2.1, hfc]
    · rw [hih.2.2.2.1, hfi]

/-- One full interval block: starting with `frame_counter = 0`, exactly
`frame_interval` calls advance `current_frame` once (mod `frame_count`) and
return the counter to 0, preserving the rest. -/
lemma advance_block (g : ℚ) (wh : ℤ) (a : ArcadeAnimatedSprite)
    (hact : (a.frames.getD 0 emptyImageSprite).active ≠ 0)
    (hcnt0 : a.frame_counter = 0) (hint : 1 ≤ a.frame_interval) :
    ((fun a' => arcade_move_animated_sprite a' g wh)^[a.frame_interval.toNat]
        a).current_frame = (a.current_frame + 1).tmod a.frame_count ∧
    ((fun a' => arcade_move_animated_sprite a' g wh)^[a.frame_interval.toNat]
        a).frame_counter = 0 ∧
    ((fun a' => arcade_move_animated_sprite a' g wh)^[a.frame_interval.toNat]
        a).frame_count = a.frame_count ∧
    ((fun a' => arcade_move_animated_sprite a' g wh)^[a.frame_interval.toNat]
        a).frame_interval = a.frame_interval ∧
    (((fun a' => arcade_move_animated_sprite a' g wh)^[a.frame_interval.toNat]
        a).frames.getD 0 emptyImageSprite).active ≠ 0 := by
  obtain ⟨m, hm⟩ : ∃ m, a.frame_interval.toNat = m + 1 :=
    ⟨a.frame_interval.toNat - 1, by omega⟩
  rw [hm, Function.iterate_succ_apply']
  have hmi : (m : ℤ) = a.frame_interval - 1 := by omega
  obtain ⟨hfcb, hcfb, hccb, hfib, hactb⟩ := advance_iter_below g wh m a hact
    (by rw [hcnt0, hmi]; omega)
  set b := (fun a' => arcade_move_animated_sprite a' g wh)^[m] a with hb
  obtain ⟨hfc, hfi, hcf, hcnt, hact1⟩ := advance_fields b g wh hactb
  have hadv : b.frame_counter + 1 ≥ b.frame_interval := by
    rw [hfcb, hfib, hcnt0, hmi]
    omega
  rw [if_pos hadv] at hcf hcnt
  refine ⟨?_, hcnt, ?_, ?_, ?_⟩
  · rw [hcf, hcfb, hccb]
  · rw [hfc, hccb]
  · rw [hfi, hfib]
  · rw [hact1]; exact hactb

/-- `n` full interval blocks advance `current_frame` by `n` (mod
`frame_count`). -/
lemma advance_blocks (g : ℚ) (wh : ℤ) (n : ℕ) :
    ∀ a : ArcadeAnimatedSprite,
      (a.frames.getD 0 emptyImageSprite).active ≠ 0 →
      a.frame_counter = 0 → 1 ≤ a.frame_interval →
      0 ≤ a.current_frame → a.current_frame < a.frame_count →
      ((fun a' => arcade_move_animated_sprite a' g wh)^[
          a.frame_interval.toNat * n] a).current_frame =
        (a.current_frame + (n : ℤ)) % a.frame_count ∧
      ((fun a' => arcade_move_animated_sprite a' g wh)^[
          a.frame_interval.toNat * n] a).frame_counter = 0 := by
  induction n with
  | zero =>
    intro a hact hcnt0 hint hcf0 hcf1
    simp only [Nat.mul_zero, Function.iterate_zero_apply, Nat.cast_zero,
      add_zero]
    rw [Int.emod_eq_of_lt hcf0 hcf1]
    exact ⟨rfl, hcnt0⟩
  | succ m ih =>
    intro a hact hcnt0 hint hcf0 hcf1
    have hcount : 0 < a.frame_count := lt_of_le_of_lt hcf0 hcf1
    have hx : a.frame_interval.toNat * (m + 1) =
        a.frame_interval.toNat * m + a.frame_interval.toNat := by ring
    rw [hx, Function.iterate_add_apply]
    obtain ⟨hbcf, hbcnt, hbcc, hbfi, hbact⟩ := advance_block g wh a hact
      hcnt0 hint
    set b := (fun a' => arcade_move_animated_sprite a' g wh)^[
      a.frame_interval.toNat] a with hbdef
    have htm : (a.current_frame + 1).tmod a.frame_count =
        (a.current_frame + 1) % a.frame_count :=
      Int.tmod_eq_emod (by omega) (le_of_lt hcount)
    have hbcf0 : 0 ≤ b.current_frame := by
      rw [hbcf, htm]
      exact Int.emod_nonneg _ (ne_of_gt hcount)
    have hbcf1 : b.current_frame < b.frame_count := by
      rw [hbcf, htm, hbcc]
      exact Int.emod_lt_of_pos _ hcount
    have hih := ih b hbact hbcnt (by rw [hbfi]; exact hint) hbcf0 hbcf1
    have hfi_eq : b.frame_interval.toNat = a.frame_interval.toNat := by
      rw [hbfi]
    rw [hfi_eq] at hih
    refine ⟨?_, hih.2⟩
    rw [hih.1, hbcf, htm, hbcc, Int.emod_add_emod]
    congr 1
    push_cast
    ring

/-- The predicate of C10 on the animation counters. -/
def animCountersInv (a : ArcadeAnimatedSprite) : Prop :=
  0 ≤ a.current_frame ∧ a.current_frame < a.frame_count ∧
  0 ≤ a.frame_counter ∧ a.frame_counter < a.frame_interval

/-- **C6.** For an animation with `frame_count ≥ 1`, `frame_interval ≥ 1`,
`frame_counter = 0`, a valid current index and an active first frame,
calling `arcade_move_animated_sprite` exactly `frame_interval` times moves
`current_frame` forward by exactly 1 modulo `frame_count` and returns
`frame_counter` to 0; calling it `frame_interval * frame_count` times
returns `current_frame` to its starting value. -/
theorem C6_advance_cycles_frames (a : ArcadeAnimatedSprite) (g : ℚ) (wh : ℤ)
    (hcount : 1 ≤ a.frame_count) (hint : 1 ≤ a.frame_interval)
    (hcnt0 : a.frame_counter = 0)
    (hact : (a.frames.getD 0 emptyImageSprite).active ≠ 0)
    (hcf0 : 0 ≤ a.current_frame) (hcf1 : a.current_frame < a.frame_count) :
    ((fun a' => arcade_move_animated_sprite a' g wh)^[a.frame_interval.toNat]
        a).current_frame = (a.current_frame + 1).tmod a.frame_count ∧
    ((fun a' => arcade_move_animated_sprite a' g wh)^[a.frame_interval.toNat]
        a).frame_counter = 0 ∧
    ((fun a' => arcade_move_animated_sprite a' g wh)^[
        (a.frame_interval * a.frame_count).toNat] a).current_frame =
      a.current_frame := by
  obtain ⟨h1, h2, -, -, -⟩ := advance_block g wh a hact hcnt0 hint
  refine ⟨h1, h2, ?_⟩
  have htn : (a.frame_interval * a.frame_count).toNat =
      a.frame_interval.toNat * a.frame_count.toNat := by
    rcases Int.eq_ofNat_of_zero_le
      (by omega : (0:ℤ) ≤ a.frame_interval) with ⟨p, hp⟩
    rcases Int.eq_ofNat_of_zero_le
      (by omega : (0:ℤ) ≤ a.frame_count) with ⟨q, hq⟩
    rw [hp, hq, ← Int.natCast_mul, Int.toNat_natCast, Int.toNat_natCast,
      Int.toNat_natCast]
  rw [htn]
  obtain ⟨hb1, -⟩ := advance_blocks g wh a.frame_count.toNat a hact hcnt0
    hint hcf0 hcf1
  rw [hb1]
  have hc : ((a.frame_count.toNat : ℤ)) = a.frame_count :=
    Int.toNat_of_nonneg (by omega)
  rw [hc, show a.current_frame + a.frame_count =
    a.current_frame + a.frame_count * 1 by ring,
    Int.add_mul_emod_self_left, Int.emod_eq_of_lt hcf0 hcf1]

/-- A concrete 1-frame animation with interval 2, used as witness input. -/
def c6Anim : ArcadeAnimatedSprite :=
  { frames := [{ emptyImageSprite with active := 1 }], frame_count := 1,
    current_frame := 0, frame_interval := 2, frame_counter := 0 }

/-- **C6, witness.** C6 at the concrete 1-frame, interval-2 animation with
zero gravity in a 600-high window. -/
theorem C6_advance_cycles_frames_witness :
    ((fun a' => arcade_move_animated_sprite a' 0 600)^[
        c6Anim.frame_interval.toNat] c6Anim).current_frame =
      (c6Anim.current_frame + 1).tmod c6Anim.frame_count ∧
    ((fun a' => arcade_move_animated_sprite a' 0 600)^[
        c6Anim.frame_interval.toNat] c6Anim).frame_counter = 0 ∧
    ((fun a' => arcade_move_animated_sprite a' 0 600)^[
        (c6Anim.frame_interval * c6Anim.frame_count).toNat]
        c6Anim).current_frame = c6Anim.current_frame :=
  C6_advance_cycles_frames c6Anim 0 600 (by decide) (by decide) (by decide)
    (by decide) (by decide) (by decide)

/-- **C10.** For every animation with `frame_count ≥ 1` and
`frame_interval ≥ 1`, the predicate `0 ≤ current_frame < frame_count ∧
0 ≤ frame_counter < frame_interval` is an invariant of
`arcade_move_animated_sprite` (for every gravity and window height), and
freshly constructed animations (`current_frame = 0`, `frame_counter = 0`)
satisfy it. -/
theorem C10_anim_counters_invariant :
    (∀ (a : ArcadeAnimatedSprite) (g : ℚ) (wh : ℤ),
      1 ≤ a.frame_count → 1 ≤ a.frame_interval → animCountersInv a →
      animCountersInv (arcade_move_animated_sprite a g wh)) ∧
    (∀ (x y w h : ℚ) (envs : List (Option LoadEnv)) (iv : ℤ),
      1 ≤ (arcade_create_animated_sprite x y w h envs iv).anim.frame_count →
      1 ≤ (arcade_create_animated_sprite x y w h envs iv).anim.frame_interval →
      animCountersInv (arcade_create_animated_sprite x y w h envs iv).anim) := by
  constructor
  · intro a g wh _hcount _hint hinv
    obtain ⟨h1, h2, h3, h4⟩ := hinv
    by_cases hact : (a.frames.getD 0 emptyImageSprite).active = 0
    · unfold arcade_move_animated_sprite
      rw [if_pos hact]
      exact ⟨h1, h2, h3, h4⟩
    · obtain ⟨hfc, hfi, hcf, hcnt, -⟩ := advance_fields a g wh hact
      rw [animCountersInv, hfc, hfi, hcf, hcnt]
      split_ifs with hc
      · have hcount' : 0 < a.frame_count := by omega
        have htm : (a.current_frame + 1).tmod a.frame_count =
            (a.current_frame + 1) % a.frame_count :=
          Int.tmod_eq_emod (by omega) (by omega)
        rw [htm]
        exact ⟨Int.emod_nonneg _ (by omega), Int.emod_lt_of_pos _ hcount',
          le_refl 0, by omega⟩
      · exact ⟨h1, h2, by omega, by omega⟩
  · intro x y w h envs iv hcount hint
    unfold arcade_create_animated_sprite at hcount hint ⊢
    cases hres : create_frames x y w h envs [] with
    | mk o freed =>
      rw [hres] at hcount hint
      cases o with
      | none =>
        dsimp only at hcount
        norm_num [emptyAnimatedSprite] at hcount
      | some frames =>
        dsimp only at hcount hint ⊢
        refine ⟨le_refl 0, ?_, le_refl 0, ?_⟩ <;>
          simp only [animCountersInv] <;> omega

/-- **C10, witness.** The invariant clause at the concrete witness
animation, and the fresh-construction clause for a one-frame animation
loaded through the fully successful oracle. -/
theorem C10_anim_counters_invariant_witness :
    animCountersInv (arcade_move_animated_sprite c6Anim 0 600) ∧
    animCountersInv (arcade_create_animated_sprite 0 0 1 1 [some goodEnv]
      2).anim :=
  ⟨C10_anim_counters_invariant.1 c6Anim 0 600 (by decide) (by decide)
    ⟨by decide, by decide, by decide, by decide⟩,
   C10_anim_counters_invariant.2 0 0 1 1 [some goodEnv] 2 (by decide)
    (by decide)⟩

/-- Failure of `load_image_sprite` at some stage: missing/corrupt file,
resize-buffer allocation failure, resize failure, or pixel-buffer
allocation failure. -/
def loadFails (e : LoadEnv) : Prop :=
  e.decode = none ∨ e.resized_alloc_ok = false ∨ e.resize = none ∨
    e.pixels_alloc_ok = false

/-- **C2, counterexample.** For a missing/corrupt file (decode fails),
`arcade_create_image_sprite` does *not* return a sprite with a null pixel
buffer **and** `active = 0`: the pixel buffer is null but `active` is
still 1, because no failure path of `load_image_sprite` ever writes
`active`. -/
theorem C2_counterexample :
    ¬ ((arcade_create_image_sprite 100 100 50 50 (some badEnv)).pixels =
          none ∧
       (arcade_create_image_sprite 100 100 50 50 (some badEnv)).active =
          0) := by
  intro hcl
  have hact : (arcade_create_image_sprite 100 100 50 50
      (some badEnv)).active = 1 := rfl
  rw [hact] at hcl
  exact absurd hcl.2 one_ne_zero

/-- **C2 (amended).** For every position/size and every load oracle failing
at any stage, `arcade_create_image_sprite` returns a sprite with a null
pixel buffer — but with `active = 1`, not `active = 0`: no failure path of
`load_image_sprite` clears the `active` field set by the initializer, so
callers must check the pixel buffer, not the active flag. -/
theorem C2_amended_failure_sentinel_active_stays_one (x y w h : ℚ)
    (e : LoadEnv) (hf : loadFails e) :
    (arcade_create_image_sprite x y w h (some e)).pixels = none ∧
    (arcade_create_image_sprite x y w h (some e)).active = 1 := by
  obtain ⟨dec, ra, rz, pa⟩ := e
  rcases dec with _ | d <;> rcases ra <;> rcases rz with _ | z <;> rcases pa <;>
    first
      | exact ⟨rfl, rfl⟩
      | (exfalso; simp [loadFails] at hf)

/-- **C2, witness.** The amended C2 at the concrete decode-failure oracle. -/
theorem C2_amended_failure_sentinel_active_stays_one_witness :
    (arcade_create_image_sprite 100 100 50 50 (some badEnv)).pixels = none ∧
    (arcade_create_image_sprite 100 100 50 50 (some badEnv)).active = 1 :=
  C2_amended_failure_sentinel_active_stays_one 100 100 50 50 badEnv
    (Or.inl rfl)

/-! ## Image transform utility

`arcade_flip_image` (arcade.h lines 1977-2022) and `arcade_rotate_image`
(lines 2095-2145) decode a source image, remap pixel coordinates into a
fresh buffer, and re-encode it to a temp file.  The claims are about the
pixel-coordinate remapping, modelled here on decoded images; the byte loops
copy the 4 RGBA channels of one source pixel together, so the model works
at whole-pixel granularity, and the double loop writing `dst_idx = y *
new_width * 4 + x * 4` is linearised over `i = y * new_width + x`. -/

/-- A decoded image: dimensions and a row-major pixel list. -/
structure ArcadeImage where
  width : ℕ
  height : ℕ
  data : List ℕ
  deriving Repr, DecidableEq

/-- Pixel at row `y`, column `x` (0 outside the buffer, which the C code
never reads under the loop bounds). -/
def getPix (img : ArcadeImage) (y x : ℕ) : ℕ :=
  img.data.getD (y * img.width + x) 0

/-- The remapping core of `arcade_rotate_image` (lines 2104-2145):
dimensions swap for 90/270; `src_x`/`src_y` per branch exactly as in the
source (`new_width = height` for 90, `new_height = width` for 270). -/
def arcade_rotate_image (img : ArcadeImage) (degrees : ℤ) : ArcadeImage :=
  let nw := if degrees = 90 ∨ degrees = 270 then img.height else img.width
  let nh := if degrees = 90 ∨ degrees = 270 then img.width else img.height
  { width := nw, height := nh,
    data := (List.range (nh * nw)).map fun i =>
      let y := i / nw
      let x := i % nw
      if degrees = 90 then getPix img (nw - 1 - x) y
      else if degrees = 180 then
        getPix img (img.height - 1 - y) (img.width - 1 - x)
      else if degrees = 270 then getPix img x (nh - 1 - y)
      else getPix img y x }

/-- The remapping core of `arcade_flip_image` (lines 1993-2022): vertical
mirror for `flip_type == 1`, horizontal mirror otherwise. -/
def arcade_flip_image (img : ArcadeImage) (flip_type : ℤ) : ArcadeImage :=
  { width := img.width, height := img.height,
    data := (List.range (img.height * img.width)).map fun i =>
      let y := i / img.width
      let x := i % img.width
      if flip_type = 1 then getPix img (img.height - 1 - y) x
      else getPix img y (img.width - 1 - x) }

lemma index_lt {y x h w : ℕ} (hy : y < h) (hx : x < w) : y * w + x < h * w :=
  calc y * w + x < y * w + w := by omega
  _ = (y + 1) * w := by ring
  _ ≤ h * w := Nat.mul_le_mul_right w hy

lemma getD_range_map (n : ℕ) (f : ℕ → ℕ) {i : ℕ} (hi : i < n) :
    ((List.range n).map f).getD i 0 = f i := by
  rw [List.getD_eq_getElem _ _ (by simpa using hi), List.getElem_map,
    List.getElem_range]

lemma index_div {y x w : ℕ} (hx : x < w) : (y * w + x) / w = y := by
  rw [mul_comm, Nat.mul_add_div (by omega), Nat.div_eq_of_lt hx, add_zero]

lemma index_mod {y x w : ℕ} (hx : x < w) : (y * w + x) % w = x := by
  rw [mul_comm, Nat.mul_add_mod, Nat.mod_eq_of_lt hx]

lemma rot90_width (img : ArcadeImage) :
    (arcade_rotate_image img 90).width = img.height := by
  norm_num [arcade_rotate_image]

lemma rot90_height (img : ArcadeImage) :
    (arcade_rotate_image img 90).height = img.width := by
  norm_num [arcade_rotate_image]

lemma rot180_width (img : ArcadeImage) :
    (arcade_rotate_image img 180).width = img.width := by
  norm_num [arcade_rotate_image]

lemma rot180_height (img : ArcadeImage) :
    (arcade_rotate_image img 180).height = img.height := by
  norm_num [arcade_rotate_image]

lemma rot90_data_length (img : ArcadeImage) :
    (arcade_rotate_image img 90).data.length = img.width * img.height := by
  norm_num [arcade_rotate_image]

lemma rot180_data_length (img : ArcadeImage) :
    (arcade_rotate_image img 180).data.length = img.height * img.width := by
  norm_num [arcade_rotate_image]

lemma rot90_data (img : ArcadeImage) :
    (arcade_rotate_image img 90).data =
      (List.range (img.width * img.height)).map fun i =>
        getPix img (img.height - 1 - i % img.height) (i / img.height) := rfl

lemma rot180_data (img : ArcadeImage) :
    (arcade_rotate_image img 180).data =
      (List.range (img.height * img.width)).map fun i =>
        getPix img (img.height - 1 - i / img.width)
          (img.width - 1 - i % img.width) := rfl

lemma getPix_rot90 (img : ArcadeImage) {y x : ℕ} (hy : y < img.width)
    (hx : x < img.height) :
    getPix (arcade_rotate_image img 90) y x =
      getPix img (img.height - 1 - x) y := by
  rw [getPix, rot90_width, rot90_data,
    getD_range_map _ _ (index_lt hy hx)]
  show getPix img (img.height - 1 - (y * img.height + x) % img.height)
    ((y * img.height + x) / img.height) = _
  rw [index_div hx, index_mod hx]

lemma getPix_rot180 (img : ArcadeImage) {y x : ℕ} (hy : y < img.height)
    (hx : x < img.width) :
    getPix (arcade_rotate_image img 180) y x =
      getPix img (img.height - 1 - y) (img.width - 1 - x) := by
  rw [getPix, rot180_width, rot180_data,
    getD_range_map _ _ (index_lt hy hx)]
  show getPix img (img.height - 1 - (y * img.width + x) / img.width)
    (img.width - 1 - (y * img.width + x) % img.width) = _
  rw [index_div hx, index_mod hx]

lemma getPix_flip (img : ArcadeImage) (ft : ℤ) {y x : ℕ}
    (hy : y < img.height) (hx : x < img.width) :
    getPix (arcade_flip_image img ft) y x =
      (if ft = 1 then getPix img (img.height - 1 - y) x
       else getPix img y (img.width - 1 - x)) := by
  rw [getPix]
  show ((List.range (img.height * img.width)).map fun i =>
      if ft = 1 then getPix img (img.height - 1 - i / img.width)
        (i % img.width)
      else getPix img (i / img.width)
        (img.width - 1 - i % img.width)).getD (y * img.width + x) 0 = _
  rw [getD_range_map _ _ (index_lt hy hx)]
  show (if ft = 1 then
      getPix img (img.height - 1 - (y * img.width + x) / img.width)
        ((y * img.width + x) % img.width)
    else getPix img ((y * img.width + x) / img.width)
        (img.width - 1 - (y * img.width + x) % img.width)) = _
  rw [index_div hx, index_mod hx]

lemma flip_width (img : ArcadeImage) (ft : ℤ) :
    (arcade_flip_image img ft).width = img.width := rfl

lemma flip_height (img : ArcadeImage) (ft : ℤ) :
    (arcade_flip_image img ft).height = img.height := rfl

lemma flip_data_length (img : ArcadeImage) (ft : ℤ) :
    (arcade_flip_image img ft).data.length = img.height * img.width := by
  simp [arcade_flip_image]

lemma getPix_getElem (img : ArcadeImage)
    (hl : img.data.length = img.height * img.width) {i : ℕ}
    (hi : i < img.data.length) :
    img.data[i] = getPix img (i / img.width) (i % img.width) := by
  have hw : 0 < img.width := by
    rcases Nat.eq_zero_or_pos img.width with h0 | h
    · rw [h0, Nat.mul_zero] at hl
      omega
    · exact h
  rw [getPix, Nat.div_add_mod' i img.width, List.getD_eq_getElem _ _ hi]

/-- Two images with the same width, coherent buffer sizes, equal lengths
and equal in-range pixels have equal buffers. -/
lemma image_data_ext (A B : ArcadeImage) (hW : A.width = B.width)
    (hlenA : A.data.length = A.height * A.width)
    (hlenB : B.data.length = B.height * B.width)
    (hlen : A.data.length = B.data.length)
    (hpt : ∀ y x, y < B.height → x < B.width → getPix A y x = getPix B y x) :
    A.data = B.data := by
  apply List.ext_getElem hlen
  intro i h1 h2
  have hw : 0 < B.width := by
    rcases Nat.eq_zero_or_pos B.width with h0 | h
    · rw [h0, Nat.mul_zero] at hlenB
      omega
    · exact h
  rw [getPix_getElem A hlenA h1, getPix_getElem B hlenB h2, hW]
  apply hpt
  · rw [hlenB] at h2
    exact (Nat.div_lt_iff_lt_mul hw).mpr h2
  · exact Nat.mod_lt _ hw

lemma rot180_twice_getPix (img : ArcadeImage) {y x : ℕ}
    (hy : y < img.height) (hx : x < img.width) :
    getPix (arcade_rotate_image (arcade_rotate_image img 180) 180) y x =
      getPix img y x := by
  rw [getPix_rot180 (arcade_rotate_image img 180)
    (by rw [rot180_height]; exact hy) (by rw [rot180_width]; exact hx)]
  rw [rot180_height, rot180_width]
  rw [getPix_rot180 img (by omega) (by omega)]
  have e1 : img.height - 1 - (img.height - 1 - y) = y := by omega
  have e2 : img.width - 1 - (img.width - 1 - x) = x := by omega
  rw [e1, e2]

lemma rot90_four_getPix (img : ArcadeImage) {y x : ℕ}
    (hy : y < img.height) (hx : x < img.width) :
    getPix (arcade_rotate_image (arcade_rotate_image (arcade_rotate_image
      (arcade_rotate_image img 90) 90) 90) 90) y x = getPix img y x := by
  have hw : 0 < img.width := by omega
  have hh : 0 < img.height := by omega
  have h1w : (arcade_rotate_image img 90).width = img.height :=
    rot90_width img
  have h1h : (arcade_rotate_image img 90).height = img.width :=
    rot90_height img
  have h2w : (arcade_rotate_image (arcade_rotate_image img 90) 90).width =
      img.width := by rw [rot90_width, h1h]
  have h2h : (arcade_rotate_image (arcade_rotate_image img 90) 90).height =
      img.height := by rw [rot90_height, h1w]
  have h3w : (arcade_rotate_image (arcade_rotate_image
      (arcade_rotate_image img 90) 90) 90).width = img.height := by
    rw [rot90_width, h2h]
  have h3h : (arcade_rotate_image (arcade_rotate_image
      (arcade_rotate_image img 90) 90) 90).height = img.width := by
    rw [rot90_height, h2w]
  rw [getPix_rot90 _ (by rw [h3w]; exact hy) (by rw [h3h]; exact hx), h3h]
  rw [getPix_rot90 _ (by rw [h2w]; omega) (by rw [h2h]; exact hy), h2h]
  rw [getPix_rot90 _ (by rw [h1w]; omega) (by rw [h1h]; omega), h1h]
  have e1 : img.width - 1 - (img.width - 1 - x) = x := by omega
  rw [e1]
  rw [getPix_rot90 img hx (by omega)]
  have e2 : img.height - 1 - (img.height - 1 - y) = y := by omega
  rw [e2]

lemma flip_twice_getPix (img : ArcadeImage) (ft : ℤ) {y x : ℕ}
    (hy : y < img.height) (hx : x < img.width) :
    getPix (arcade_flip_image (arcade_flip_image img ft) ft) y x =
      getPix img y x := by
  rw [getPix_flip _ ft (by rw [flip_height]; exact hy)
    (by rw [flip_width]; exact hx), flip_height, flip_width]
  by_cases hft : ft = 1
  · rw [if_pos hft, getPix_flip img ft (by omega) hx, if_pos hft]
    have e1 : img.height - 1 - (img.height - 1 - y) = y := by omega
    rw [e1]
  · rw [if_neg hft, getPix_flip img ft hy (by omega), if_neg hft]
    have e2 : img.width - 1 - (img.width - 1 - x) = x := by omega
    rw [e2]

/-- **C8.** The pixel-coordinate remappings of the image transforms
round-trip to the identity on every well-formed image (buffer length
`width * height`): rotating by 180 twice reproduces the dimensions and the
pixel buffer exactly; rotating by 90 four times reproduces the dimensions
and the pixel buffer; flipping twice along the same axis (either axis,
i.e. any `flip_type`) reproduces the pixel buffer exactly. -/
theorem C8_transform_round_trips (img : ArcadeImage)
    (hlen : img.data.length = img.width * img.height) :
    ((arcade_rotate_image (arcade_rotate_image img 180) 180).width =
        img.width ∧
      (arcade_rotate_image (arcade_rotate_image img 180) 180).height =
        img.height ∧
      (arcade_rotate_image (arcade_rotate_image img 180) 180).data =
        img.data) ∧
    ((arcade_rotate_image (arcade_rotate_image (arcade_rotate_image
        (arcade_rotate_image img 90) 90) 90) 90).width = img.width ∧
      (arcade_rotate_image (arcade_rotate_image (arcade_rotate_image
        (arcade_rotate_image img 90) 90) 90) 90).height = img.height ∧
      (arcade_rotate_image (arcade_rotate_image (arcade_rotate_image
        (arcade_rotate_image img 90) 90) 90) 90).data = img.data) ∧
    (∀ ft : ℤ,
      (arcade_flip_image (arcade_flip_image img ft) ft).width = img.width ∧
      (arcade_flip_image (arcade_flip_image img ft) ft).height =
        img.height ∧
      (arcade_flip_image (arcade_flip_image img ft) ft).data = img.data) := by
  refine ⟨⟨?_, ?_, ?_⟩, ⟨?_, ?_, ?_⟩, ?_⟩
  · rw [rot180_width, rot180_width]
  · rw [rot180_height, rot180_height]
  · refine image_data_ext _ img (by rw [rot180_width, rot180_width]) ?_ ?_
      ?_ ?_
    · simp only [rot180_data_length, rot180_height, rot180_width]
    · rw [hlen]
      ring
    · rw [rot180_data_length, rot180_height, rot180_width, hlen]
      ring
    · intro y x hy hx
      exact rot180_twice_getPix img hy hx
  · rw [rot90_width, rot90_height, rot90_width, rot90_height]
  · rw [rot90_height, rot90_width, rot90_height, rot90_width]
  · refine image_data_ext _ img
      (by rw [rot90_width, rot90_height, rot90_width, rot90_height]) ?_ ?_
      ?_ ?_
    · simp only [rot90_data_length, rot90_height, rot90_width]
      try ring
    · rw [hlen]
      ring
    · rw [rot90_data_length, rot90_width, rot90_height, rot90_height,
        rot90_width, rot90_width, rot90_height, hlen]
      ring
    · intro y x hy hx
      exact rot90_four_getPix img hy hx
  · intro ft
    refine ⟨rfl, rfl, ?_⟩
    refine image_data_ext _ img rfl ?_ ?_ ?_ ?_
    · simp only [flip_data_length, flip_height, flip_width]
    · rw [hlen]
      ring
    · rw [flip_data_length, flip_height, flip_width, hlen]
      ring
    · intro y x hy hx
      exact flip_twice_getPix img ft hy hx

/-- A concrete 2×1 image with two distinct pixels. -/
def c8Image : ArcadeImage := { width := 2, height := 1, data := [10, 20] }

/-- **C8, witness.** The round trips at the concrete 2×1 image. -/
theorem C8_transform_round_trips_witness :
    ((arcade_rotate_image (arcade_rotate_image c8Image 180) 180).width =
        c8Image.width ∧
      (arcade_rotate_image (arcade_rotate_image c8Image 180) 180).height =
        c8Image.height ∧
      (arcade_rotate_image (arcade_rotate_image c8Image 180) 180).data =
        c8Image.data) ∧
    ((arcade_rotate_image (arcade_rotate_image (arcade_rotate_image
        (arcade_rotate_image c8Image 90) 90) 90) 90).width =
        c8Image.width ∧
      (arcade_rotate_image (arcade_rotate_image (arcade_rotate_image
        (arcade_rotate_image c8Image 90) 90) 90) 90).height =
        c8Image.height ∧
      (arcade_rotate_image (arcade_rotate_image (arcade_rotate_image
        (arcade_rotate_image c8Image 90) 90) 90) 90).data = c8Image.data) ∧
    (∀ ft : ℤ,
      (arcade_flip_image (arcade_flip_image c8Image ft) ft).width =
        c8Image.width ∧
      (arcade_flip_image (arcade_flip_image c8Image ft) ft).height =
        c8Image.height ∧
      (arcade_flip_image (arcade_flip_image c8Image ft) ft).data =
        c8Image.data) :=
  C8_transform_round_trips c8Image (by decide)

end Arcade
